import Mathlib

/-!
Shallow embedding of the WhatsApp API demo backend (src/main.py, src/schemas.py).

The MongoDB store is modelled as four lists of documents (one per collection)
plus a counter supplying fresh `_id` values.  `find_one` becomes `List.find?`
(first match in insertion order) and `update_one` becomes `updateFirst`
(rewrite the first matching document in place).  Randomly generated values
(OTP codes, bearer tokens, instance ids, instance tokens, message ids) and the
current time are passed in as parameters.  Python truthiness on optional
strings is modelled by `truthyStr`.  Each route returns `Except ApiError`
of its response (paired with the updated store for mutating routes);
`send_message` additionally returns the list of webhook HTTP calls attempted
by `_emit_webhook`.
-/

namespace WhatsAppDemo

/-- A `user` collection document (schemas.User). -/
structure UserDoc where
  id : Nat
  email : Option String := none
  phone : Option String := none
  uname : Option String := none
  otp_code : Option String := none
  otp_expires_at : Option Nat := none
  access_tokens : List String := []
deriving DecidableEq, Repr

/-- An `instance` collection document (schemas.Instance). -/
structure InstanceDoc where
  id : Nat
  user_id : String
  iname : String
  instance_id : String
  token : String
  is_authenticated : Bool
deriving DecidableEq, Repr

/-- A `message` collection document (schemas.Message).  The `interactive`
dict payload is modelled as an opaque optional string. -/
structure MessageDoc where
  id : Nat
  instance_id : String
  toNumber : String
  mtype : String
  text : Option String := none
  media_url : Option String := none
  interactive : Option String := none
  status : String
  error : Option String := none
  message_id : String
deriving DecidableEq, Repr

/-- A `webhook` collection document (schemas.Webhook). -/
structure WebhookDoc where
  id : Nat
  instance_id : String
  url : String
  events : List String
deriving DecidableEq, Repr

/-- The database: one list per collection, plus a fresh-`_id` counter. -/
structure Store where
  users : List UserDoc := []
  instances : List InstanceDoc := []
  messages : List MessageDoc := []
  webhooks : List WebhookDoc := []
  nextId : Nat := 0
deriving DecidableEq, Repr

/-- An HTTPException raised by a route: status code and detail string. -/
structure ApiError where
  status_code : Nat
  detail : String
deriving DecidableEq, Repr

/-- Python truthiness of an optional string: `None` and `""` are falsy. -/
def truthyStr : Option String → Bool
  | none => false
  | some s => !(s == "")

/-- `update_one(filter, {$set ...})`: rewrite the first matching document. -/
def updateFirst (p : α → Bool) (f : α → α) : List α → List α
  | [] => []
  | x :: xs => if p x then f x :: xs else x :: updateFirst p f xs

/-- The identifier filter of the OTP routes: `{"email": v}` when email is
truthy, else `{"phone": v}` (main.py lines 111 and 137). -/
def userMatchesIdent (byEmail : Bool) (v : String) (u : UserDoc) : Bool :=
  if byEmail then u.email == some v else u.phone == some v

/-- The identifier value the OTP routes filter on. -/
def identVal (email phone : Option String) : String :=
  if truthyStr email then email.getD "" else phone.getD ""

/-- `get_current_user`: resolve a bearer token to the first user whose
`access_tokens` list contains it (main.py lines 52-65). -/
def get_current_user (s : Store) (token : String) : Option UserDoc :=
  if token == "" then none
  else s.users.find? (fun u => u.access_tokens.contains token)

/-- Request payload of POST /auth/otp/request (schemas.OTPRequest). -/
structure OTPRequestP where
  email : Option String := none
  phone : Option String := none
deriving DecidableEq, Repr

/-- POST /auth/otp/request (main.py lines 106-129).  `code` is the random
6-digit code, `now` the current time in seconds.  Returns the demo response
(code, expiry) and the updated store. -/
def request_otp (s : Store) (p : OTPRequestP) (code : String) (now : Nat) :
    Except ApiError ((String × Nat) × Store) :=
  if !truthyStr p.email && !truthyStr p.phone then
    .error ⟨400, "Provide email or phone"⟩
  else
    let byEmail := truthyStr p.email
    let v := identVal p.email p.phone
    let expires := now + 10 * 60
    let upd : UserDoc → UserDoc := fun u =>
      if byEmail then
        { u with email := some v, otp_code := some code,
                 otp_expires_at := some expires }
      else
        { u with phone := some v, otp_code := some code,
                 otp_expires_at := some expires }
    let newUser : UserDoc :=
      { id := s.nextId,
        email := if byEmail then some v else none,
        phone := if byEmail then none else some v,
        uname := none,
        otp_code := some code,
        otp_expires_at := some expires,
        access_tokens := [] }
    match s.users.find? (userMatchesIdent byEmail v) with
    | some _ =>
        let users1 := updateFirst (userMatchesIdent byEmail v) upd s.users
        .ok ((code, expires), { s with users := users1 })
    | none =>
        .ok ((code, expires),
          { s with users := s.users ++ [newUser], nextId := s.nextId + 1 })

/-- Request payload of POST /auth/otp/verify (schemas.OTPVerify). -/
structure OTPVerifyP where
  email : Option String := none
  phone : Option String := none
  code : String
deriving DecidableEq, Repr

/-- POST /auth/otp/verify (main.py lines 132-158).  `tok` is the random
40-character bearer token to issue on success.  Returns the token and the
updated store. -/
def verify_otp (s : Store) (p : OTPVerifyP) (tok : String) (now : Nat) :
    Except ApiError (String × Store) :=
  if !truthyStr p.email && !truthyStr p.phone then
    .error ⟨400, "Provide email or phone"⟩
  else
    let byEmail := truthyStr p.email
    let v := identVal p.email p.phone
    match s.users.find? (userMatchesIdent byEmail v) with
    | none => .error ⟨400, "OTP not requested"⟩
    | some u =>
        if !truthyStr u.otp_code then .error ⟨400, "OTP not requested"⟩
        else if u.otp_code != some p.code then .error ⟨400, "Invalid OTP"⟩
        else if (match u.otp_expires_at with
                 | some e => decide (now > e)
                 | none => false) then .error ⟨400, "OTP expired"⟩
        else
          let clearOtp : UserDoc → UserDoc := fun x =>
            { x with otp_code := none, otp_expires_at := none,
                     access_tokens := x.access_tokens ++ [tok] }
          let users1 := updateFirst (fun x => x.id == u.id) clearOtp s.users
          .ok (tok, { s with users := users1 })

/-- GET /instances (main.py lines 163-168): returns all instance documents
owned by the caller, in full. -/
def list_instances (s : Store) (bearer : String) :
    Except ApiError (List InstanceDoc) :=
  match get_current_user s bearer with
  | none => .error ⟨401, "Invalid or expired token"⟩
  | some u => .ok (s.instances.filter (fun i => i.user_id == toString u.id))

/-- Response of POST /instances. -/
structure CreateInstanceResp where
  oid : Nat
  instance_id : String
  token : String
  is_authenticated : Bool
deriving DecidableEq, Repr

/-- POST /instances (main.py lines 171-183).  `instance_id` and `token` are
the random public id and secret token. -/
def create_instance (s : Store) (bearer : String) (nm : String)
    (instance_id token : String) :
    Except ApiError (CreateInstanceResp × Store) :=
  match get_current_user s bearer with
  | none => .error ⟨401, "Invalid or expired token"⟩
  | some u =>
      let doc : InstanceDoc :=
        { id := s.nextId,
          user_id := toString u.id,
          iname := nm,
          instance_id := instance_id,
          token := token,
          is_authenticated := false }
      .ok ({ oid := s.nextId, instance_id := instance_id, token := token,
             is_authenticated := false },
           { s with instances := s.instances ++ [doc],
                    nextId := s.nextId + 1 })

/-- POST /instances/{instance_id}/authenticate (main.py lines 186-192). -/
def authenticate_instance (s : Store) (bearer : String) (instance_id : String) :
    Except ApiError ((String × Bool) × Store) :=
  match get_current_user s bearer with
  | none => .error ⟨401, "Invalid or expired token"⟩
  | some u =>
      match s.instances.find?
          (fun i => i.instance_id == instance_id
                    && i.user_id == toString u.id) with
      | none => .error ⟨404, "Instance not found"⟩
      | some inst =>
          let insts1 := updateFirst (fun i => i.id == inst.id)
            (fun i => { i with is_authenticated := true }) s.instances
          .ok ((instance_id, true), { s with instances := insts1 })

/-- Request payload of POST /webhooks/register (schemas.RegisterWebhook). -/
structure RegisterWebhookP where
  instance_id : String
  token : String
  url : String
  events : Option (List String) := none
deriving DecidableEq, Repr

/-- POST /webhooks/register (main.py lines 197-205).  `payload.events or
[...]` defaults on None or the empty list. -/
def register_webhook (s : Store) (p : RegisterWebhookP) :
    Except ApiError (Nat × Store) :=
  match s.instances.find? (fun i => i.instance_id == p.instance_id) with
  | none => .error ⟨401, "Invalid instance credentials"⟩
  | some inst =>
      if inst.token != p.token then .error ⟨401, "Invalid instance credentials"⟩
      else
        let evs := match p.events with
          | none => ["message.status", "message.incoming"]
          | some l => if l.isEmpty then ["message.status", "message.incoming"]
                      else l
        let doc : WebhookDoc :=
          { id := s.nextId,
            instance_id := p.instance_id,
            url := p.url,
            events := evs }
        .ok (s.nextId,
          { s with webhooks := s.webhooks ++ [doc],
                   nextId := s.nextId + 1 })

/-- One outbound HTTP POST attempted by `_emit_webhook`:
`requests.post(h["url"], json={"event": event, "data": data})`. -/
structure WebhookCall where
  url : String
  event : String
  message_id : String
  status : String
deriving DecidableEq, Repr

/-- `_emit_webhook` (main.py lines 208-215): one best-effort POST per webhook
of the instance whose `events` list contains the event. -/
def emit_webhook (s : Store) (instance_id event : String)
    (message_id status : String) : List WebhookCall :=
  (s.webhooks.filter
      (fun h => h.instance_id == instance_id && h.events.contains event)).map
    (fun h => { url := h.url, event := event, message_id := message_id,
                status := status })

/-- Request payload of POST /messages/send (schemas.SendMessage). -/
structure SendMessageP where
  instance_id : String
  token : String
  toNumber : String
  mtype : Option String := some "text"
  text : Option String := none
  media_url : Option String := none
  interactive : Option String := none
deriving DecidableEq, Repr

/-- The `{message_id, status, error}` triple returned by /messages/send and
/messages/{id}/status. -/
structure SendResult where
  message_id : String
  status : String
  error : Option String
deriving DecidableEq, Repr

/-- The Message document persisted by `send_message` (main.py lines 230-240),
given the decided status and error. -/
def messageDocOf (s : Store) (p : SendMessageP) (msg_id status : String)
    (error : Option String) : MessageDoc :=
  let mt := match p.mtype with
    | none => "text"
    | some t => if t == "" then "text" else t
  { id := s.nextId,
    instance_id := p.instance_id,
    toNumber := p.toNumber,
    mtype := mt,
    text := p.text,
    media_url := p.media_url,
    interactive := p.interactive,
    status := status,
    error := error,
    message_id := msg_id }

/-- POST /messages/send (main.py lines 220-249).  `msg_id` is the random
public message id.  Returns the response triple, the updated store, and the
webhook calls attempted. -/
def send_message (s : Store) (p : SendMessageP) (msg_id : String) :
    Except ApiError (SendResult × Store × List WebhookCall) :=
  match s.instances.find? (fun i => i.instance_id == p.instance_id) with
  | none => .error ⟨401, "Invalid instance credentials"⟩
  | some inst =>
      if inst.token != p.token then .error ⟨401, "Invalid instance credentials"⟩
      else
        let status := if inst.is_authenticated then "sent" else "failed"
        let error := if inst.is_authenticated then none
                     else some "Instance not authenticated (scan QR first)"
        let doc := messageDocOf s p msg_id status error
        let s' : Store :=
          { s with messages := s.messages ++ [doc],
                   nextId := s.nextId + 1 }
        let calls := if status == "sent" then
            emit_webhook s' p.instance_id "message.status" msg_id "sent"
          else []
        .ok ({ message_id := msg_id, status := status, error := error },
             s', calls)

/-- GET /messages/{message_id}/status (main.py lines 252-258). -/
def get_message_status (s : Store) (message_id : String) :
    Except ApiError SendResult :=
  match s.messages.find? (fun m => m.message_id == message_id) with
  | none => .error ⟨404, "Message not found"⟩
  | some m => .ok { message_id := m.message_id, status := m.status,
                    error := m.error }

/-- One call to any route of the core, with its random/time parameters. -/
inductive Op where
  | requestOtp (email phone : Option String) (code : String) (now : Nat)
  | verifyOtp (email phone : Option String) (code : String)
      (tok : String) (now : Nat)
  | createInstance (bearer nm instId tok : String)
  | authenticateInstance (bearer instId : String)
  | listInstances (bearer : String)
  | registerWebhook (p : RegisterWebhookP)
  | sendMessage (p : SendMessageP) (msgId : String)
  | getMessageStatus (msgId : String)
deriving DecidableEq, Repr

/-- The store after one route call (an HTTPException leaves it unchanged). -/
def applyOp (s : Store) : Op → Store
  | .requestOtp e ph c now =>
      match request_otp s ⟨e, ph⟩ c now with
      | .ok (_, s') => s' | .error _ => s
  | .verifyOtp e ph c tok now =>
      match verify_otp s ⟨e, ph, c⟩ tok now with
      | .ok (_, s') => s' | .error _ => s
  | .createInstance b nm iid tok =>
      match create_instance s b nm iid tok with
      | .ok (_, s') => s' | .error _ => s
  | .authenticateInstance b iid =>
      match authenticate_instance s b iid with
      | .ok (_, s') => s' | .error _ => s
  | .listInstances _ => s
  | .registerWebhook p =>
      match register_webhook s p with
      | .ok (_, s') => s' | .error _ => s
  | .sendMessage p mid =>
      match send_message s p mid with
      | .ok (_, s', _) => s' | .error _ => s
  | .getMessageStatus _ => s

/-- The credential check of `send_message` and `register_webhook` fails:
no instance has the given public id, or the first one that does stores a
different secret token (main.py lines 222-224 and 199-201). -/
def credCheckFails (s : Store) (iid tok : String) : Bool :=
  match s.instances.find? (fun i => i.instance_id == iid) with
  | none => true
  | some inst => inst.token != tok

/-- Concrete store for the C1 witness: one unauthenticated instance. -/
def w1Inst : InstanceDoc :=
  { id := 0, user_id := "1", iname := "dev", instance_id := "i1",
    token := "T", is_authenticated := false }

def w1Store : Store := { instances := [w1Inst], nextId := 1 }

def w1Payload : SendMessageP :=
  { instance_id := "i1", token := "T", toNumber := "+15550001111",
    text := some "hi" }

/-- Concrete store for the C2 witness: one authenticated instance with one
subscribed webhook. -/
def w2Inst : InstanceDoc :=
  { id := 0, user_id := "1", iname := "dev", instance_id := "i1",
    token := "T", is_authenticated := true }

def w2Store : Store :=
  { instances := [w2Inst],
    webhooks := [{ id := 1, instance_id := "i1",
                   url := "http://cb.example/a",
                   events := ["message.status"] }],
    nextId := 2 }

def w2Payload : SendMessageP :=
  { instance_id := "i1", token := "T", toNumber := "+15550001111",
    text := some "hi" }

/-- Concrete store for the C7 witness. -/
def w7Store : Store :=
  { instances := [{ id := 0, user_id := "1", iname := "dev",
                    instance_id := "i1", token := "SECRET",
                    is_authenticated := true }], nextId := 1 }

/-- Concrete store for the C10 witness. -/
def w10Store : Store :=
  { instances := [{ id := 0, user_id := "1", iname := "dev",
                    instance_id := "i1", token := "SECRET",
                    is_authenticated := true }], nextId := 1 }

/-- Concrete store for C3: one user holding a bearer token, owning one
instance whose stored secret token is "SECRET-TOKEN". -/
def w3User : UserDoc :=
  { id := 1, email := some "a@b.c", access_tokens := ["BEARER"] }

def w3Inst : InstanceDoc :=
  { id := 2, user_id := "1", iname := "dev", instance_id := "i1",
    token := "SECRET-TOKEN", is_authenticated := false }

def w3Store : Store := { users := [w3User], instances := [w3Inst], nextId := 3 }

/-- Concrete store for C5: one user with a pending OTP "123456" that expired
at time 0. -/
def w5User : UserDoc :=
  { id := 0, email := some "a@b.c", otp_code := some "123456",
    otp_expires_at := some 0 }

def w5Store : Store := { users := [w5User], nextId := 1 }

/-- Concrete data for the C6 witness: a user with a live OTP. -/
def w6User : UserDoc :=
  { id := 0, email := some "a@b.c", otp_code := some "123456",
    otp_expires_at := some 1000 }

def w6Store : Store := { users := [w6User], nextId := 1 }

/-- The store after the first successful VerifyOTP on `w6Store`. -/
def w6Store2 : Store :=
  { users := [{ id := 0, email := some "a@b.c", phone := none,
                uname := none, otp_code := none, otp_expires_at := none,
                access_tokens := ["TOK"] }],
    nextId := 1 }

/-- Concrete data for the C8 witness. -/
def w8Inst : InstanceDoc :=
  { id := 0, user_id := "1", iname := "dev", instance_id := "i1",
    token := "T", is_authenticated := true }

def w8Store : Store := { instances := [w8Inst], nextId := 1 }

def w8Payload : SendMessageP :=
  { instance_id := "i1", token := "T", toNumber := "+15550001111",
    text := some "hi" }

/-- The store after the witness send. -/
def w8Store2 : Store :=
  { instances := [w8Inst],
    messages := [{ id := 1, instance_id := "i1",
                   toNumber := "+15550001111", mtype := "text",
                   text := some "hi", media_url := none,
                   interactive := none, status := "sent", error := none,
                   message_id := "m1" }],
    nextId := 2 }

/-- All fields of an instance document are preserved and its
`is_authenticated` flag can only rise (false to true, never back). -/
def instMono (a b : InstanceDoc) : Prop :=
  b.id = a.id ∧ b.user_id = a.user_id ∧ b.iname = a.iname ∧
  b.instance_id = a.instance_id ∧ b.token = a.token ∧
  (a.is_authenticated = true → b.is_authenticated = true)

/-- Concrete data for the C9 witness. -/
def w9User : UserDoc :=
  { id := 1, email := some "o@b.c", access_tokens := ["B"] }

def w9InstF : InstanceDoc :=
  { id := 2, user_id := "1", iname := "dev", instance_id := "i1",
    token := "S", is_authenticated := false }

def w9InstT : InstanceDoc :=
  { id := 2, user_id := "1", iname := "dev", instance_id := "i1",
    token := "S", is_authenticated := true }

def w9Store : Store :=
  { users := [w9User], instances := [w9InstF], nextId := 3 }

def w9StoreT : Store :=
  { users := [w9User], instances := [w9InstT], nextId := 3 }

def w9Resp : CreateInstanceResp :=
  { oid := 3, instance_id := "i2", token := "S2",
    is_authenticated := false }

def w9Created : Store :=
  { users := [w9User],
    instances := [w9InstF,
      { id := 3, user_id := "1", iname := "dev2", instance_id := "i2",
        token := "S2", is_authenticated := false }],
    nextId := 4 }

/-- Well-formedness of the `message` collection: every stored message has
the status/error pair that `send_message` writes (the only writer of this
collection). -/
def messagesWellFormed (s : Store) : Prop :=
  ∀ m ∈ s.messages,
    (m.status = "sent" ∧ m.error = none) ∨
    (m.status = "failed" ∧
      m.error = some "Instance not authenticated (scan QR first)")

/-- Concrete data for the C3 witness: a user with a pending OTP. -/
def w3OtpUser : UserDoc :=
  { id := 5, email := some "c3@b.c", otp_code := some "111111",
    otp_expires_at := some 1000 }

def w3OtpStore : Store := { users := [w3OtpUser], nextId := 6 }

/-- Concrete data for the C3 witness: the store after the verify. -/
def w3OtpStore2 : Store :=
  { users := [{ id := 5, email := some "c3@b.c", phone := none,
                uname := none, otp_code := none, otp_expires_at := none,
                access_tokens := ["NEWTOK"] }],
    nextId := 6 }

/-- Concrete data for the C3 witness: store after authenticating w3Inst. -/
def w3AuthStore : Store :=
  { users := [w3User],
    instances := [{ id := 2, user_id := "1", iname := "dev",
                    instance_id := "i1", token := "SECRET-TOKEN",
                    is_authenticated := true }],
    nextId := 3 }

/-- Concrete data for the C3 witness: store after a webhook registration. -/
def w3HookStore : Store :=
  { users := [w3User], instances := [w3Inst],
    webhooks := [{ id := 3, instance_id := "i1",
                   url := "http://cb.example/a",
                   events := ["message.status", "message.incoming"] }],
    nextId := 4 }

/-- Concrete data for the C3 witness: store after a failed-status send. -/
def w3SentStore : Store :=
  { users := [w3User], instances := [w3Inst],
    messages := [{ id := 3, instance_id := "i1",
                   toNumber := "+15550001111", mtype := "text",
                   text := some "hi", media_url := none,
                   interactive := none, status := "failed",
                   error := some "Instance not authenticated (scan QR first)",
                   message_id := "m1" }],
    nextId := 4 }

/-! ## Theorems -/

theorem send_message_credFail (s : Store) (p : SendMessageP) (mid : String)
    (h : credCheckFails s p.instance_id p.token = true) :
    send_message s p mid = .error ⟨401, "Invalid instance credentials"⟩ := by
  unfold credCheckFails at h
  unfold send_message
  cases hf : s.instances.find? (fun i => i.instance_id == p.instance_id) with
  | none => rfl
  | some inst =>
      rw [hf] at h
      have h2 : (inst.token != p.token) = true := h
      simp [h2]

theorem register_webhook_credFail (s : Store) (q : RegisterWebhookP)
    (h : credCheckFails s q.instance_id q.token = true) :
    register_webhook s q = .error ⟨401, "Invalid instance credentials"⟩ := by
  unfold credCheckFails at h
  unfold register_webhook
  cases hf : s.instances.find? (fun i => i.instance_id == q.instance_id) with
  | none => rfl
  | some inst =>
      rw [hf] at h
      have h2 : (inst.token != q.token) = true := h
      simp [h2]

/-- C1: a SendMessage call that passes the instance-credential check on an
instance with `is_authenticated = false` returns status "failed" with the
exact error "Instance not authenticated (scan QR first)", and attempts no
webhook call. -/
theorem sendMessage_unauthenticated_fails_no_webhook (s : Store)
    (p : SendMessageP) (mid : String) (inst : InstanceDoc)
    (hfind : s.instances.find? (fun i => i.instance_id == p.instance_id)
      = some inst)
    (htok : inst.token = p.token)
    (hauth : inst.is_authenticated = false) :
    ∃ s', send_message s p mid =
      .ok ({ message_id := mid, status := "failed",
             error := some "Instance not authenticated (scan QR first)" },
           s', []) := by
  refine ⟨{ s with
            messages := s.messages ++ [messageDocOf s p mid "failed"
              (some "Instance not authenticated (scan QR first)")],
            nextId := s.nextId + 1 }, ?_⟩
  unfold send_message
  rw [hfind]
  simp [htok, hauth]

/-- C1 witness. -/
theorem sendMessage_unauthenticated_fails_no_webhook_witness :
    ∃ s', send_message w1Store w1Payload "m1" =
      .ok ({ message_id := "m1", status := "failed",
             error := some "Instance not authenticated (scan QR first)" },
           s', []) :=
  sendMessage_unauthenticated_fails_no_webhook w1Store w1Payload "m1" w1Inst
    (by decide) rfl rfl

/-- C2: a SendMessage call that passes the instance-credential check on an
instance with `is_authenticated = true` returns status "sent" with no error,
and attempts exactly one "message.status" webhook call, carrying the message
id and status "sent", per registered webhook of that instance whose events
list contains "message.status". -/
theorem sendMessage_authenticated_sent_webhooks (s : Store)
    (p : SendMessageP) (mid : String) (inst : InstanceDoc)
    (hfind : s.instances.find? (fun i => i.instance_id == p.instance_id)
      = some inst)
    (htok : inst.token = p.token)
    (hauth : inst.is_authenticated = true) :
    ∃ s', send_message s p mid =
      .ok ({ message_id := mid, status := "sent", error := none }, s',
        (s.webhooks.filter (fun h => h.instance_id == p.instance_id
            && h.events.contains "message.status")).map
          (fun h => { url := h.url, event := "message.status",
                      message_id := mid, status := "sent" })) := by
  refine ⟨{ s with
            messages := s.messages ++ [messageDocOf s p mid "sent" none],
            nextId := s.nextId + 1 }, ?_⟩
  unfold send_message
  rw [hfind]
  simp [htok, hauth, emit_webhook]

/-- C2 witness. -/
theorem sendMessage_authenticated_sent_webhooks_witness :
    ∃ s', send_message w2Store w2Payload "m1" =
      .ok ({ message_id := "m1", status := "sent", error := none }, s',
        [{ url := "http://cb.example/a", event := "message.status",
           message_id := "m1", status := "sent" }]) :=
  sendMessage_authenticated_sent_webhooks w2Store w2Payload "m1" w2Inst
    (by decide) rfl rfl

/-- C7: a SendMessage or RegisterWebhook call whose public id matches no
instance, or whose presented token differs from the matched instance's
stored token, fails with the 401 "Invalid instance credentials" error. -/
theorem credential_mismatch_unauthorized (s : Store) (p : SendMessageP)
    (mid : String) (q : RegisterWebhookP)
    (hp : credCheckFails s p.instance_id p.token = true)
    (hq : credCheckFails s q.instance_id q.token = true) :
    send_message s p mid = .error ⟨401, "Invalid instance credentials"⟩ ∧
    register_webhook s q = .error ⟨401, "Invalid instance credentials"⟩ :=
  ⟨send_message_credFail s p mid hp, register_webhook_credFail s q hq⟩

/-- C7 witness: unknown instance id for send, near-miss token (one extra
character) for register. -/
theorem credential_mismatch_unauthorized_witness :
    send_message w7Store
        { instance_id := "nope", token := "SECRET",
          toNumber := "+15550001111" } "m1" =
      .error ⟨401, "Invalid instance credentials"⟩ ∧
    register_webhook w7Store
        { instance_id := "i1", token := "SECRET ",
          url := "http://cb.example/a" } =
      .error ⟨401, "Invalid instance credentials"⟩ :=
  credential_mismatch_unauthorized w7Store
    { instance_id := "nope", token := "SECRET", toNumber := "+15550001111" }
    "m1"
    { instance_id := "i1", token := "SECRET ", url := "http://cb.example/a" }
    (by decide) (by decide)

/-- C10: when SendMessage fails the credential check, it raises 401 before
persisting anything: the store is unchanged (no message document persisted,
nothing else touched) and no webhook call is attempted (the attempted-call
list exists only on the success path). -/
theorem sendMessage_unauthorized_atomic (s : Store) (p : SendMessageP)
    (mid : String)
    (h : credCheckFails s p.instance_id p.token = true) :
    send_message s p mid = .error ⟨401, "Invalid instance credentials"⟩ ∧
    applyOp s (Op.sendMessage p mid) = s := by
  have he := send_message_credFail s p mid h
  refine ⟨he, ?_⟩
  simp only [applyOp]
  rw [he]

/-- C10 witness: wrong token leaves the store untouched. -/
theorem sendMessage_unauthorized_atomic_witness :
    send_message w10Store
        { instance_id := "i1", token := "WRONG",
          toNumber := "+15550001111" } "m1" =
      .error ⟨401, "Invalid instance credentials"⟩ ∧
    applyOp w10Store
        (Op.sendMessage
          { instance_id := "i1", token := "WRONG",
            toNumber := "+15550001111" } "m1") = w10Store :=
  sendMessage_unauthorized_atomic w10Store
    { instance_id := "i1", token := "WRONG", toNumber := "+15550001111" }
    "m1" (by decide)

/-- C3 counterexample: ListInstances returns the full instance documents, so
its output contains the instance's stored secret token — the token is not
returned only at creation time. -/
theorem listInstances_leaks_token_counterexample :
    list_instances w3Store "BEARER" = .ok [w3Inst] ∧
    w3Inst.token = "SECRET-TOKEN" := by
  constructor
  · rfl
  · rfl

/-- C4 counterexample: both email and phone non-empty, yet RequestOTP
succeeds (the route only rejects when neither is provided); email takes
precedence as the identifier of the upserted user. -/
theorem requestOtp_both_provided_succeeds :
    request_otp { } { email := some "a@b.c", phone := some "+15550001111" }
        "123456" 0 =
      .ok (("123456", 600),
        { users := [{ id := 0, email := some "a@b.c", phone := none,
                      uname := none, otp_code := some "123456",
                      otp_expires_at := some 600, access_tokens := [] }],
          nextId := 1 }) := by
  rfl

/-- C4 amended: RequestOTP fails — with the 400 "Provide email or phone"
error — exactly when neither email nor phone is non-empty; in every other
case, both-provided included, it succeeds. -/
theorem requestOtp_fails_iff_neither_identifier (s : Store) (p : OTPRequestP)
    (code : String) (now : Nat) :
    (truthyStr p.email = false → truthyStr p.phone = false →
      request_otp s p code now = .error ⟨400, "Provide email or phone"⟩) ∧
    ((truthyStr p.email = true ∨ truthyStr p.phone = true) →
      ∃ r, request_otp s p code now = .ok r) := by
  constructor
  · intro he hp
    unfold request_otp
    simp [he, hp]
  · intro h
    have h0 : (!truthyStr p.email && !truthyStr p.phone) = false := by
      rcases h with h | h <;> simp [h]
    simp only [request_otp, h0, Bool.false_eq_true, if_false]
    cases hf : s.users.find? (userMatchesIdent (truthyStr p.email)
        (identVal p.email p.phone)) with
    | some u => exact ⟨_, rfl⟩
    | none => exact ⟨_, rfl⟩

/-- C4 amended witness. -/
theorem requestOtp_fails_iff_neither_identifier_witness :
    request_otp { } { email := none, phone := none } "123456" 0 =
      .error ⟨400, "Provide email or phone"⟩ ∧
    (∃ r, request_otp { } { email := some "a@b.c", phone := some "+15551" }
      "123456" 0 = .ok r) :=
  ⟨(requestOtp_fails_iff_neither_identifier { }
      { email := none, phone := none } "123456" 0).1 rfl rfl,
   (requestOtp_fails_iff_neither_identifier { }
      { email := some "a@b.c", phone := some "+15551" } "123456" 0).2
     (Or.inl rfl)⟩

/-- C5 counterexample: pending OTP whose expiry (time 0) is in the past at
time 100, submitted code "999999" — VerifyOTP fails with "Invalid OTP"
(InvalidCode), not "OTP expired": the code check runs before the expiry
check. -/
theorem verifyOtp_expired_wrong_code_gives_invalid :
    verify_otp w5Store { email := some "a@b.c", code := "999999" } "T" 100 =
      .error ⟨400, "Invalid OTP"⟩ := by
  rfl

/-- C5 amended: with a pending OTP whose expiry is in the past, VerifyOTP
fails with "OTP expired" when the submitted code matches the stored one,
and with "Invalid OTP" when it does not (the code-match check precedes the
expiry check). -/
theorem verifyOtp_expired_splits_on_code (s : Store) (p : OTPVerifyP)
    (tok : String) (now : Nat) (u : UserDoc) (e : Nat)
    (hne : (truthyStr p.email || truthyStr p.phone) = true)
    (hfind : s.users.find? (userMatchesIdent (truthyStr p.email)
      (identVal p.email p.phone)) = some u)
    (hotp : truthyStr u.otp_code = true)
    (hexp : u.otp_expires_at = some e)
    (hlt : e < now) :
    (u.otp_code = some p.code →
      verify_otp s p tok now = .error ⟨400, "OTP expired"⟩) ∧
    (u.otp_code ≠ some p.code →
      verify_otp s p tok now = .error ⟨400, "Invalid OTP"⟩) := by
  have h0 : (!truthyStr p.email && !truthyStr p.phone) = false := by
    cases he : truthyStr p.email <;> cases hp : truthyStr p.phone <;>
      simp_all
  constructor
  · intro hc
    rw [hc] at hotp
    unfold verify_otp
    simp only [h0, Bool.false_eq_true, if_false, hfind, hc, hotp,
      Bool.not_true, hexp]
    simp [hlt, hotp]
  · intro hc
    have hbne : (u.otp_code != some p.code) = true := by
      simp [bne_iff_ne, hc]
    unfold verify_otp
    simp only [h0, Bool.false_eq_true, if_false, hfind, hotp, Bool.not_true,
      hbne]
    simp

/-- C5 amended witness: same store as the counterexample, matching code,
expired — fails with "OTP expired". -/
theorem verifyOtp_expired_splits_on_code_witness :
    verify_otp w5Store { email := some "a@b.c", code := "123456" } "T" 100 =
      .error ⟨400, "OTP expired"⟩ :=
  (verifyOtp_expired_splits_on_code w5Store
      { email := some "a@b.c", code := "123456" } "T" 100 w5User 0
      (by decide) (by decide) rfl rfl (by decide)).1 rfl

theorem updateFirst_length {α : Type} (q : α → Bool) (f : α → α)
    (l : List α) : (updateFirst q f l).length = l.length := by
  induction l with
  | nil => rfl
  | cons x xs ih =>
      unfold updateFirst
      by_cases h : q x
      · simp [h]
      · simp [h, ih]

theorem updateFirst_get {α : Type} (q : α → Bool) (f : α → α) (l : List α)
    (j : Nat) (hj : j < l.length)
    (hj' : j < (updateFirst q f l).length) :
    (updateFirst q f l).get ⟨j, hj'⟩ = l.get ⟨j, hj⟩ ∨
    ((updateFirst q f l).get ⟨j, hj'⟩ = f (l.get ⟨j, hj⟩) ∧
      q (l.get ⟨j, hj⟩) = true) := by
  induction l generalizing j with
  | nil => exact absurd hj (Nat.not_lt_zero j)
  | cons x xs ih =>
      by_cases h : q x
      · cases j with
        | zero =>
            right
            constructor
            · simp [updateFirst, h]
            · simpa using h
        | succ k =>
            left
            simp [updateFirst, h]
      · cases j with
        | zero =>
            left
            simp [updateFirst, h]
        | succ k =>
            have hk : k < xs.length := by
              simpa using hj
            have hk' : k < (updateFirst q f xs).length := by
              rw [updateFirst_length]; exact hk
            have := ih k hk hk'
            simpa [updateFirst, h] using this

theorem find?_updateFirst_of_nodup {α : Type} (idOf : α → Nat)
    (l : List α) (p : α → Bool) (u : α) (f : α → α)
    (hnd : (l.map idOf).Nodup)
    (hfind : l.find? p = some u)
    (hpf : p (f u) = true) :
    (updateFirst (fun x => idOf x == idOf u) f l).find? p = some (f u) := by
  induction l with
  | nil => cases hfind
  | cons x xs ih =>
      by_cases hx : p x
      · have hux : u = x := by
          have := List.find?_cons_of_pos (p := p) xs hx
          rw [this] at hfind
          exact (Option.some.injEq _ _ ▸ hfind).symm
        subst hux
        have hq : (idOf u == idOf u) = true := by simp
        simp only [updateFirst, hq, if_true]
        exact List.find?_cons_of_pos _ hpf
      · rw [List.map_cons, List.nodup_cons] at hnd
        have hfind' : xs.find? p = some u := by
          rwa [List.find?_cons_of_neg _ hx] at hfind
        have humem : u ∈ xs := List.mem_of_find?_eq_some hfind'
        have hne : idOf x ≠ idOf u := by
          intro hcontra
          exact hnd.1 (hcontra ▸ List.mem_map_of_mem idOf humem)
        have hq : (idOf x == idOf u) = false := by
          simpa using hne
        simp only [updateFirst, hq, Bool.false_eq_true, if_false]
        rw [List.find?_cons_of_neg _ hx]
        exact ih hnd.2 hfind'

theorem find?_append_of_none {α : Type} (l₁ l₂ : List α) (p : α → Bool)
    (h : ∀ x ∈ l₁, p x = false) :
    (l₁ ++ l₂).find? p = l₂.find? p := by
  induction l₁ with
  | nil => rfl
  | cons x xs ih =>
      rw [List.cons_append, List.find?_cons_of_neg, ih]
      · intro y hy
        exact h y (List.mem_cons_of_mem x hy)
      · simp [h x (List.mem_cons_self x xs)]

theorem find?_id_of_mem_nodup {α : Type} (idOf : α → Nat) (l : List α)
    (u : α) (hnd : (l.map idOf).Nodup) (hmem : u ∈ l) :
    l.find? (fun x => idOf x == idOf u) = some u := by
  induction l with
  | nil => cases hmem
  | cons x xs ih =>
      by_cases hx : (idOf x == idOf u) = true
      · have hxu : x = u := by
          rcases List.mem_cons.mp hmem with h | h
          · exact h.symm
          · exact List.inj_on_of_nodup_map hnd (List.mem_cons_self x xs)
              (List.mem_cons_of_mem x h) (by simpa using hx)
        rw [hxu]
        exact List.find?_cons_of_pos _ (by simp)
      · have hmem' : u ∈ xs := by
          rcases List.mem_cons.mp hmem with h | h
          · exact absurd (by simp [h]) hx
          · exact h
        rw [List.find?_cons_of_neg _ (by simpa using hx)]
        rw [List.map_cons, List.nodup_cons] at hnd
        exact ih hnd.2 hmem'

theorem updateFirst_eq_self_of_found {α : Type} (q : α → Bool) (f : α → α)
    (l : List α) (x : α) (hfind : l.find? q = some x) (hfx : f x = x) :
    updateFirst q f l = l := by
  induction l with
  | nil => rfl
  | cons y ys ih =>
      by_cases hy : q y
      · have hxy : x = y := by
          rw [List.find?_cons_of_pos _ hy] at hfind
          exact (Option.some.injEq _ _ ▸ hfind).symm
        subst hxy
        simp [updateFirst, hy, hfx]
      · rw [List.find?_cons_of_neg _ hy] at hfind
        simp [updateFirst, hy, ih hfind]

theorem updateFirst_forall₂ {α : Type} (R : α → α → Prop) (q : α → Bool)
    (f : α → α) (l : List α) (hrefl : ∀ a, R a a) (hf : ∀ a, R a (f a)) :
    List.Forall₂ R l (updateFirst q f l) := by
  induction l with
  | nil => exact List.Forall₂.nil
  | cons x xs ih =>
      by_cases hx : q x
      · simp only [updateFirst, hx, if_true]
        exact List.Forall₂.cons (hf x) (List.forall₂_same.2 fun y _ => hrefl y)
      · simp only [updateFirst, hx, Bool.false_eq_true, if_false]
        exact List.Forall₂.cons (hrefl x) ih

theorem request_otp_ok_inv (s : Store) (p : OTPRequestP) (code : String)
    (now : Nat) (r : String × Nat) (s' : Store)
    (h : request_otp s p code now = .ok (r, s')) :
    s'.instances = s.instances ∧ s'.messages = s.messages ∧
    s'.webhooks = s.webhooks := by
  simp only [request_otp] at h
  split at h
  · exact absurd h (by simp)
  · split at h
    · simp only [Except.ok.injEq, Prod.mk.injEq] at h
      obtain ⟨-, hs⟩ := h
      subst hs
      exact ⟨rfl, rfl, rfl⟩
    · simp only [Except.ok.injEq, Prod.mk.injEq] at h
      obtain ⟨-, hs⟩ := h
      subst hs
      exact ⟨rfl, rfl, rfl⟩

theorem verify_otp_ok_inv (s : Store) (p : OTPVerifyP) (tok : String)
    (now : Nat) (tr : String) (s' : Store)
    (h : verify_otp s p tok now = .ok (tr, s')) :
    tr = tok ∧
    (!truthyStr p.email && !truthyStr p.phone) = false ∧
    ∃ u, s.users.find? (userMatchesIdent (truthyStr p.email)
        (identVal p.email p.phone)) = some u ∧
      truthyStr u.otp_code = true ∧
      u.otp_code = some p.code ∧
      s' = { s with
             users := updateFirst (fun x => x.id == u.id)
                        (fun x =>
                          { x with otp_code := none, otp_expires_at := none,
                                   access_tokens :=
                                     x.access_tokens ++ [tok] })
                        s.users } := by
  simp only [verify_otp] at h
  split at h
  · exact absurd h (by simp)
  next h0 =>
    split at h
    · exact absurd h (by simp)
    next u hf =>
      split at h
      · exact absurd h (by simp)
      next hotp =>
        split at h
        · exact absurd h (by simp)
        next hcode =>
          split at h
          · exact absurd h (by simp)
          next hexp =>
            simp only [Except.ok.injEq, Prod.mk.injEq] at h
            obtain ⟨htr, hs⟩ := h
            refine ⟨htr.symm, by simpa using h0, u, hf, ?_, ?_, hs.symm⟩
            · simpa using hotp
            · exact bne_eq_false_iff_eq.mp (by simpa using hcode)

theorem create_instance_ok_inv (s : Store) (bearer nm iid tok : String)
    (r : CreateInstanceResp) (s' : Store)
    (h : create_instance s bearer nm iid tok = .ok (r, s')) :
    ∃ u, get_current_user s bearer = some u ∧
      r = { oid := s.nextId, instance_id := iid, token := tok,
            is_authenticated := false } ∧
      s' = { s with
             instances := s.instances ++
               [{ id := s.nextId, user_id := toString u.id, iname := nm,
                  instance_id := iid, token := tok,
                  is_authenticated := false }],
             nextId := s.nextId + 1 } := by
  simp only [create_instance] at h
  split at h
  · exact absurd h (by simp)
  next u hu =>
    simp only [Except.ok.injEq, Prod.mk.injEq] at h
    obtain ⟨hr, hs⟩ := h
    exact ⟨u, hu, hr.symm, hs.symm⟩

theorem authenticate_instance_ok_inv (s : Store) (bearer iid : String)
    (r : String × Bool) (s' : Store)
    (h : authenticate_instance s bearer iid = .ok (r, s')) :
    ∃ u inst, get_current_user s bearer = some u ∧
      s.instances.find? (fun i => i.instance_id == iid
        && i.user_id == toString u.id) = some inst ∧
      r = (iid, true) ∧
      s' = { s with
             instances := updateFirst (fun i => i.id == inst.id)
                            (fun i => { i with is_authenticated := true })
                            s.instances } := by
  simp only [authenticate_instance] at h
  split at h
  · exact absurd h (by simp)
  next u hu =>
    split at h
    · exact absurd h (by simp)
    next inst hf =>
      simp only [Except.ok.injEq, Prod.mk.injEq] at h
      obtain ⟨hr, hs⟩ := h
      exact ⟨u, inst, hu, hf, hr.symm, hs.symm⟩

theorem register_webhook_ok_inv (s : Store) (q : RegisterWebhookP)
    (r : Nat) (s' : Store)
    (h : register_webhook s q = .ok (r, s')) :
    s'.users = s.users ∧ s'.instances = s.instances ∧
    s'.messages = s.messages := by
  simp only [register_webhook] at h
  split at h
  · exact absurd h (by simp)
  next inst hf =>
    split at h
    · exact absurd h (by simp)
    next htok =>
      simp only [Except.ok.injEq, Prod.mk.injEq] at h
      obtain ⟨-, hs⟩ := h
      subst hs
      exact ⟨rfl, rfl, rfl⟩

theorem send_message_ok_inv (s : Store) (p : SendMessageP) (mid : String)
    (r : SendResult) (s' : Store) (calls : List WebhookCall)
    (h : send_message s p mid = .ok (r, s', calls)) :
    r.message_id = mid ∧
    s'.users = s.users ∧ s'.instances = s.instances ∧
    s'.webhooks = s.webhooks ∧
    s'.messages = s.messages ++ [messageDocOf s p mid r.status r.error] := by
  simp only [send_message] at h
  split at h
  · exact absurd h (by simp)
  next inst hf =>
    split at h
    · exact absurd h (by simp)
    next htok =>
      simp only [Except.ok.injEq, Prod.mk.injEq] at h
      obtain ⟨hr, hs, -⟩ := h
      subst hs
      subst hr
      exact ⟨rfl, rfl, rfl, rfl, rfl⟩

/-- C6: a successful VerifyOTP clears the user's otp_code and otp_expires_at
(sets both to null), so a second VerifyOTP with the same identifier and the
now-consumed code fails with "OTP not requested" (NotRequested).  Assumes
the store invariant that user _ids are unique. -/
theorem verifyOtp_clears_code_second_fails (s : Store) (p : OTPVerifyP)
    (tok : String) (now : Nat) (tr : String) (s' : Store)
    (hnd : (s.users.map (fun u => u.id)).Nodup)
    (hok : verify_otp s p tok now = .ok (tr, s')) :
    (∃ u', u' ∈ s'.users ∧
      userMatchesIdent (truthyStr p.email) (identVal p.email p.phone) u'
        = true ∧
      u'.otp_code = none ∧ u'.otp_expires_at = none) ∧
    ∀ tok2 now2,
      verify_otp s' p tok2 now2 = .error ⟨400, "OTP not requested"⟩ := by
  obtain ⟨-, h0, u, hf, -, -, hs⟩ := verify_otp_ok_inv s p tok now tr s' hok
  have hpu : userMatchesIdent (truthyStr p.email) (identVal p.email p.phone) u
      = true := List.find?_some hf
  have hpf : userMatchesIdent (truthyStr p.email) (identVal p.email p.phone)
      { u with otp_code := none, otp_expires_at := none,
               access_tokens := u.access_tokens ++ [tok] } = true := hpu
  have hfind2 : List.find?
      (userMatchesIdent (truthyStr p.email) (identVal p.email p.phone))
      (updateFirst (fun x => x.id == u.id)
        (fun x =>
          { x with otp_code := none, otp_expires_at := none,
                   access_tokens := x.access_tokens ++ [tok] })
        s.users) =
      some { u with otp_code := none, otp_expires_at := none,
                    access_tokens := u.access_tokens ++ [tok] } :=
    find?_updateFirst_of_nodup (fun x => x.id) s.users
      (userMatchesIdent (truthyStr p.email) (identVal p.email p.phone)) u
      (fun x =>
        { x with otp_code := none, otp_expires_at := none,
                 access_tokens := x.access_tokens ++ [tok] })
      hnd hf hpf
  constructor
  · refine ⟨_, ?_, hpf, rfl, rfl⟩
    rw [hs]
    exact List.mem_of_find?_eq_some hfind2
  · intro tok2 now2
    rw [hs]
    simp only [verify_otp, h0, Bool.false_eq_true, if_false]
    simp only [hfind2]
    simp [truthyStr]

/-- C6 witness. -/
theorem verifyOtp_clears_code_second_fails_witness :
    (∃ u', u' ∈ w6Store2.users ∧
      userMatchesIdent (truthyStr (some "a@b.c"))
        (identVal (some "a@b.c") none) u' = true ∧
      u'.otp_code = none ∧ u'.otp_expires_at = none) ∧
    ∀ tok2 now2,
      verify_otp w6Store2 { email := some "a@b.c", code := "123456" }
        tok2 now2 = .error ⟨400, "OTP not requested"⟩ :=
  verifyOtp_clears_code_second_fails w6Store
    { email := some "a@b.c", code := "123456" } "TOK" 500 "TOK" w6Store2
    (by decide) rfl

/-- Every route either leaves the `message` collection unchanged or appends
to it: no operation of this core mutates a message after creation. -/
theorem applyOp_messages_extend (t : Store) (op : Op) :
    ∃ tail, (applyOp t op).messages = t.messages ++ tail := by
  cases op with
  | requestOtp e ph c now =>
      simp only [applyOp]
      cases h : request_otp t ⟨e, ph⟩ c now with
      | error err => exact ⟨[], by simp⟩
      | ok v =>
          obtain ⟨rr, ss⟩ := v
          obtain ⟨-, hm, -⟩ := request_otp_ok_inv t ⟨e, ph⟩ c now rr ss h
          exact ⟨[], by simp [hm]⟩
  | verifyOtp e ph c tok now =>
      simp only [applyOp]
      cases h : verify_otp t ⟨e, ph, c⟩ tok now with
      | error err => exact ⟨[], by simp⟩
      | ok v =>
          obtain ⟨rr, ss⟩ := v
          obtain ⟨-, -, u, -, -, -, hs⟩ :=
            verify_otp_ok_inv t ⟨e, ph, c⟩ tok now rr ss h
          exact ⟨[], by rw [hs]; simp⟩
  | createInstance b nm iid tok =>
      simp only [applyOp]
      cases h : create_instance t b nm iid tok with
      | error err => exact ⟨[], by simp⟩
      | ok v =>
          obtain ⟨rr, ss⟩ := v
          obtain ⟨u, -, -, hs⟩ := create_instance_ok_inv t b nm iid tok rr ss h
          exact ⟨[], by rw [hs]; simp⟩
  | authenticateInstance b iid =>
      simp only [applyOp]
      cases h : authenticate_instance t b iid with
      | error err => exact ⟨[], by simp⟩
      | ok v =>
          obtain ⟨rr, ss⟩ := v
          obtain ⟨u, inst, -, -, -, hs⟩ :=
            authenticate_instance_ok_inv t b iid rr ss h
          exact ⟨[], by rw [hs]; simp⟩
  | listInstances b => exact ⟨[], by simp [applyOp]⟩
  | registerWebhook q =>
      simp only [applyOp]
      cases h : register_webhook t q with
      | error err => exact ⟨[], by simp⟩
      | ok v =>
          obtain ⟨rr, ss⟩ := v
          obtain ⟨-, -, hm⟩ := register_webhook_ok_inv t q rr ss h
          exact ⟨[], by simp [hm]⟩
  | sendMessage q mid =>
      simp only [applyOp]
      cases h : send_message t q mid with
      | error err => exact ⟨[], by simp⟩
      | ok v =>
          obtain ⟨rr, ss, cc⟩ := v
          obtain ⟨-, -, -, -, hm⟩ := send_message_ok_inv t q mid rr ss cc h
          exact ⟨[messageDocOf t q mid rr.status rr.error], by simp [hm]⟩
  | getMessageStatus mid => exact ⟨[], by simp [applyOp]⟩

/-- C8: GetMessageStatus right after a successful SendMessage, with a fresh
message id, returns exactly the `{message_id, status, error}` triple the
send returned; and no route of this core ever mutates an existing message
document (messages are append-only). -/
theorem sendMessage_getStatus_roundtrip (s : Store) (p : SendMessageP)
    (mid : String) (r : SendResult) (s' : Store) (calls : List WebhookCall)
    (hsend : send_message s p mid = .ok (r, s', calls))
    (hfresh : ∀ m ∈ s.messages, m.message_id ≠ mid) :
    get_message_status s' mid = .ok r ∧
    ∀ (t : Store) (op : Op), ∃ tail,
      (applyOp t op).messages = t.messages ++ tail := by
  refine ⟨?_, fun t op => applyOp_messages_extend t op⟩
  obtain ⟨hrid, -, -, -, hmsgs⟩ := send_message_ok_inv s p mid r s' calls hsend
  simp only [get_message_status, hmsgs]
  rw [find?_append_of_none]
  · rw [List.find?_cons_of_pos]
    · cases r with
      | mk rid rst rerr =>
          simp only at hrid
          subst hrid
          rfl
    · simp [messageDocOf]
  · intro m hm
    simpa using hfresh m hm

/-- C8 witness. -/
theorem sendMessage_getStatus_roundtrip_witness :
    get_message_status w8Store2 "m1" =
      .ok { message_id := "m1", status := "sent", error := none } :=
  (sendMessage_getStatus_roundtrip w8Store w8Payload "m1"
    { message_id := "m1", status := "sent", error := none } w8Store2 []
    rfl (by simp [w8Store])).1

theorem instMono_refl (a : InstanceDoc) : instMono a a :=
  ⟨rfl, rfl, rfl, rfl, rfl, fun h => h⟩

theorem instMono_set_true (a : InstanceDoc) :
    instMono a { a with is_authenticated := true } :=
  ⟨rfl, rfl, rfl, rfl, rfl, fun _ => rfl⟩

theorem get_eq_of_list_eq {α : Type} (l l' : List α) (h : l = l') (j : Nat)
    (hj : j < l.length) (hj' : j < l'.length) :
    l.get ⟨j, hj⟩ = l'.get ⟨j, hj'⟩ := by
  subst h
  rfl

/-- One route call either leaves the `instance` collection unchanged,
appends a single unauthenticated instance (create), or is an authenticate
call that rewrites the first id-match of the found instance to
authenticated. -/
theorem applyOp_instances_cases (s : Store) (op : Op) :
    (applyOp s op).instances = s.instances ∨
    (∃ d : InstanceDoc, d.is_authenticated = false ∧
      (applyOp s op).instances = s.instances ++ [d]) ∨
    (∃ b iid u inst, op = Op.authenticateInstance b iid ∧
      get_current_user s b = some u ∧
      s.instances.find? (fun i => i.instance_id == iid
        && i.user_id == toString u.id) = some inst ∧
      (applyOp s op).instances = updateFirst (fun i => i.id == inst.id)
        (fun i => { i with is_authenticated := true }) s.instances) := by
  cases op with
  | requestOtp e ph c now =>
      left
      simp only [applyOp]
      cases h : request_otp s ⟨e, ph⟩ c now with
      | error err => rfl
      | ok v =>
          obtain ⟨rr, ss⟩ := v
          exact (request_otp_ok_inv s ⟨e, ph⟩ c now rr ss h).1
  | verifyOtp e ph c tok now =>
      left
      simp only [applyOp]
      cases h : verify_otp s ⟨e, ph, c⟩ tok now with
      | error err => rfl
      | ok v =>
          obtain ⟨rr, ss⟩ := v
          obtain ⟨-, -, u, -, -, -, hs⟩ :=
            verify_otp_ok_inv s ⟨e, ph, c⟩ tok now rr ss h
          rw [hs]
  | createInstance b nm iid tok =>
      simp only [applyOp]
      cases h : create_instance s b nm iid tok with
      | error err => left; rfl
      | ok v =>
          obtain ⟨rr, ss⟩ := v
          obtain ⟨u, -, -, hs⟩ := create_instance_ok_inv s b nm iid tok rr ss h
          right; left
          exact ⟨_, rfl, by rw [hs]⟩
  | authenticateInstance b iid =>
      simp only [applyOp]
      cases h : authenticate_instance s b iid with
      | error err => left; rfl
      | ok v =>
          obtain ⟨rr, ss⟩ := v
          obtain ⟨u, inst, hu, hf, -, hs⟩ :=
            authenticate_instance_ok_inv s b iid rr ss h
          right; right
          exact ⟨b, iid, u, inst, rfl, hu, hf, by rw [hs]⟩
  | listInstances b => left; rfl
  | registerWebhook q =>
      left
      simp only [applyOp]
      cases h : register_webhook s q with
      | error err => rfl
      | ok v =>
          obtain ⟨rr, ss⟩ := v
          exact (register_webhook_ok_inv s q rr ss h).2.1
  | sendMessage q mid =>
      left
      simp only [applyOp]
      cases h : send_message s q mid with
      | error err => rfl
      | ok v =>
          obtain ⟨rr, ss, cc⟩ := v
          exact (send_message_ok_inv s q mid rr ss cc h).2.2.1
  | getMessageStatus mid => left; rfl

/-- C9: (i) every instance is created with is_authenticated = false;
(ii) along any route call, every pre-existing instance keeps its identity
fields and its flag is monotonic (true stays true); (iii) when user _ids
are unique, the only call that changes some instance's flag is an
AuthenticateInstance with that instance's exact public id, resolved to its
owning user, and the change is false-to-true; (iv) authenticating an
already-authenticated instance succeeds and leaves the store unchanged
(idempotence). -/
theorem instance_flag_lifecycle :
    (∀ (s : Store) (b nm iid tok : String) (r : CreateInstanceResp)
      (s' : Store), create_instance s b nm iid tok = .ok (r, s') →
      r.is_authenticated = false ∧
      ∃ d, s'.instances = s.instances ++ [d] ∧
        d.is_authenticated = false ∧ d.instance_id = iid) ∧
    (∀ (s : Store) (op : Op),
      List.Forall₂ instMono s.instances
        ((applyOp s op).instances.take s.instances.length)) ∧
    (∀ (s : Store) (op : Op) (j : Nat) (hj : j < s.instances.length)
      (hj' : j < (applyOp s op).instances.length),
      (s.instances.map (fun i => i.id)).Nodup →
      ((applyOp s op).instances.get ⟨j, hj'⟩).is_authenticated ≠
        (s.instances.get ⟨j, hj⟩).is_authenticated →
      ∃ b u, op = Op.authenticateInstance b
          ((s.instances.get ⟨j, hj⟩).instance_id) ∧
        get_current_user s b = some u ∧
        (s.instances.get ⟨j, hj⟩).user_id = toString u.id ∧
        ((applyOp s op).instances.get ⟨j, hj'⟩).is_authenticated = true ∧
        (s.instances.get ⟨j, hj⟩).is_authenticated = false) ∧
    (∀ (s : Store) (b iid : String) (u : UserDoc) (inst : InstanceDoc),
      (s.instances.map (fun i => i.id)).Nodup →
      get_current_user s b = some u →
      s.instances.find? (fun i => i.instance_id == iid
        && i.user_id == toString u.id) = some inst →
      inst.is_authenticated = true →
      authenticate_instance s b iid = .ok ((iid, true), s)) := by
  refine ⟨?_, ?_, ?_, ?_⟩
  · intro s b nm iid tok r s' h
    obtain ⟨u, -, hr, hs⟩ := create_instance_ok_inv s b nm iid tok r s' h
    subst hr
    exact ⟨rfl, _, by rw [hs], rfl, rfl⟩
  · intro s op
    rcases applyOp_instances_cases s op with hcase | ⟨d, hd, hcase⟩ |
      ⟨b, iid, u, inst, hop, hu, hf, hcase⟩
    · rw [hcase, List.take_length]
      exact List.forall₂_same.2 fun a _ => instMono_refl a
    · rw [hcase, List.take_left]
      exact List.forall₂_same.2 fun a _ => instMono_refl a
    · rw [hcase]
      have hlen : s.instances.length =
          (updateFirst (fun i => i.id == inst.id)
            (fun i => { i with is_authenticated := true })
            s.instances).length :=
        (updateFirst_length _ _ _).symm
      rw [hlen, List.take_length]
      exact updateFirst_forall₂ instMono _ _ s.instances instMono_refl
        instMono_set_true
  · intro s op j hj hj' hnd hne
    rcases applyOp_instances_cases s op with hcase | ⟨d, hd, hcase⟩ |
      ⟨b, iid, u, inst, hop, hu, hf, hcase⟩
    · exact absurd
        (congrArg InstanceDoc.is_authenticated
          (get_eq_of_list_eq _ _ hcase j hj' hj)) hne
    · have hj2 : j < (s.instances ++ [d]).length := by
        rw [← hcase]; exact hj'
      have h1 : (applyOp s op).instances.get ⟨j, hj'⟩ =
          (s.instances ++ [d]).get ⟨j, hj2⟩ :=
        get_eq_of_list_eq _ _ hcase j hj' hj2
      have h2 : (s.instances ++ [d]).get ⟨j, hj2⟩ =
          s.instances.get ⟨j, hj⟩ := by
        simp only [List.get_eq_getElem]
        exact List.getElem_append_left hj
      exact absurd (congrArg InstanceDoc.is_authenticated (h1.trans h2)) hne
    · have hj2 : j < (updateFirst (fun i => i.id == inst.id)
          (fun i => { i with is_authenticated := true })
          s.instances).length := by
        rw [← hcase]; exact hj'
      have h1 : (applyOp s op).instances.get ⟨j, hj'⟩ =
          (updateFirst (fun i => i.id == inst.id)
            (fun i => { i with is_authenticated := true })
            s.instances).get ⟨j, hj2⟩ :=
        get_eq_of_list_eq _ _ hcase j hj' hj2
      rcases updateFirst_get (fun i => i.id == inst.id)
          (fun i => { i with is_authenticated := true })
          s.instances j hj hj2 with heq | ⟨heqf, hq⟩
      · exact absurd
          (congrArg InstanceDoc.is_authenticated (h1.trans heq)) hne
      · have haid : (s.instances.get ⟨j, hj⟩).id = inst.id := by
          simpa using hq
        have hamem : s.instances.get ⟨j, hj⟩ ∈ s.instances :=
          List.get_mem s.instances j hj
        have hinstmem : inst ∈ s.instances := List.mem_of_find?_eq_some hf
        have hai : s.instances.get ⟨j, hj⟩ = inst :=
          List.inj_on_of_nodup_map hnd hamem hinstmem haid
        have hprops := List.find?_some hf
        rw [Bool.and_eq_true] at hprops
        have hiid : inst.instance_id = iid := by
          simpa using hprops.1
        have huid : inst.user_id = toString u.id := by
          simpa using hprops.2
        have hnew : ((applyOp s op).instances.get ⟨j, hj'⟩).is_authenticated
            = true := by
          rw [h1, heqf]
        have hold : (s.instances.get ⟨j, hj⟩).is_authenticated = false := by
          cases hb : (s.instances.get ⟨j, hj⟩).is_authenticated
          · rfl
          · exact absurd (hnew.trans hb.symm) hne
        refine ⟨b, u, ?_, hu, ?_, hnew, hold⟩
        · rw [hop, hai, hiid]
        · rw [hai, huid]
  · intro s b iid u inst hnd hu hf hflag
    have hinstmem : inst ∈ s.instances := List.mem_of_find?_eq_some hf
    have hfid : s.instances.find? (fun i => i.id == inst.id) = some inst :=
      find?_id_of_mem_nodup (fun i => i.id) s.instances inst hnd hinstmem
    have hfx : ({ inst with is_authenticated := true } : InstanceDoc)
        = inst := by
      cases inst with
      | mk i1 i2 i3 i4 i5 i6 =>
          simp only at hflag
          rw [hflag]
    have hupd : updateFirst (fun i => i.id == inst.id)
        (fun i => { i with is_authenticated := true }) s.instances
        = s.instances :=
      updateFirst_eq_self_of_found _ _ s.instances inst hfid hfx
    simp only [authenticate_instance, hu, hf, hupd]

/-- C9 witness: instantiates all four parts on concrete stores. -/
theorem instance_flag_lifecycle_witness :
    (w9Resp.is_authenticated = false ∧
      ∃ d, w9Created.instances = w9Store.instances ++ [d] ∧
        d.is_authenticated = false ∧ d.instance_id = "i2") ∧
    List.Forall₂ instMono w9Store.instances
      ((applyOp w9Store (Op.listInstances "B")).instances.take
        w9Store.instances.length) ∧
    (∃ b u, Op.authenticateInstance "B" "i1" = Op.authenticateInstance b
        ((w9Store.instances.get ⟨0, by decide⟩).instance_id) ∧
      get_current_user w9Store b = some u ∧
      (w9Store.instances.get ⟨0, by decide⟩).user_id = toString u.id ∧
      (((applyOp w9Store (Op.authenticateInstance "B" "i1")).instances.get
        ⟨0, by decide⟩)).is_authenticated = true ∧
      (w9Store.instances.get ⟨0, by decide⟩).is_authenticated = false) ∧
    authenticate_instance w9StoreT "B" "i1" = .ok (("i1", true), w9StoreT) :=
  ⟨instance_flag_lifecycle.1 w9Store "B" "dev2" "i2" "S2" w9Resp w9Created
     rfl,
   instance_flag_lifecycle.2.1 w9Store (Op.listInstances "B"),
   instance_flag_lifecycle.2.2.1 w9Store
     (Op.authenticateInstance "B" "i1") 0 (by decide) (by decide)
     (by decide) (by decide),
   instance_flag_lifecycle.2.2.2 w9StoreT "B" "i1" w9User w9InstT
     (by decide) (by decide) (by decide) rfl⟩

/-! ## Output characterization of the non-token-returning routes -/

theorem request_otp_ok_result (s : Store) (p : OTPRequestP) (code : String)
    (now : Nat) (rr : String × Nat) (s' : Store)
    (h : request_otp s p code now = .ok (rr, s')) :
    rr = (code, now + 10 * 60) := by
  simp only [request_otp] at h
  split at h
  · exact absurd h (by simp)
  · split at h
    · simp only [Except.ok.injEq, Prod.mk.injEq] at h
      exact h.1.symm
    · simp only [Except.ok.injEq, Prod.mk.injEq] at h
      exact h.1.symm

theorem register_webhook_ok_id (s : Store) (q : RegisterWebhookP)
    (n : Nat) (s' : Store) (h : register_webhook s q = .ok (n, s')) :
    n = s.nextId := by
  simp only [register_webhook] at h
  split at h
  · exact absurd h (by simp)
  next inst hf =>
    split at h
    · exact absurd h (by simp)
    next htok =>
      simp only [Except.ok.injEq, Prod.mk.injEq] at h
      exact h.1.symm

theorem send_message_ok_result (s : Store) (p : SendMessageP) (mid : String)
    (r : SendResult) (s' : Store) (calls : List WebhookCall)
    (h : send_message s p mid = .ok (r, s', calls)) :
    (r.status = "sent" ∧ r.error = none) ∨
    (r.status = "failed" ∧
      r.error = some "Instance not authenticated (scan QR first)") := by
  simp only [send_message] at h
  split at h
  · exact absurd h (by simp)
  next inst hf =>
    split at h
    · exact absurd h (by simp)
    next htok =>
      simp only [Except.ok.injEq, Prod.mk.injEq] at h
      obtain ⟨hr, -, -⟩ := h
      subst hr
      cases hauth : inst.is_authenticated
      · right
        constructor <;> simp [hauth]
      · left
        constructor <;> simp [hauth]

theorem get_message_status_ok_inv (s : Store) (mid : String)
    (r : SendResult) (h : get_message_status s mid = .ok r) :
    ∃ m ∈ s.messages, m.message_id = mid ∧
      r = { message_id := m.message_id, status := m.status,
            error := m.error } := by
  simp only [get_message_status] at h
  split at h
  · exact absurd h (by simp)
  next m hm =>
    simp only [Except.ok.injEq] at h
    refine ⟨m, List.mem_of_find?_eq_some hm, ?_, h.symm⟩
    simpa using List.find?_some hm

theorem messagesWellFormed_preserved (s : Store) (op : Op)
    (hwf : messagesWellFormed s) : messagesWellFormed (applyOp s op) := by
  cases op with
  | requestOtp e ph c now =>
      simp only [applyOp]
      cases h : request_otp s ⟨e, ph⟩ c now with
      | error err => exact hwf
      | ok v =>
          obtain ⟨rr, ss⟩ := v
          obtain ⟨-, hm, -⟩ := request_otp_ok_inv s ⟨e, ph⟩ c now rr ss h
          intro m hmem
          exact hwf m (by rwa [hm] at hmem)
  | verifyOtp e ph c tok now =>
      simp only [applyOp]
      cases h : verify_otp s ⟨e, ph, c⟩ tok now with
      | error err => exact hwf
      | ok v =>
          obtain ⟨rr, ss⟩ := v
          obtain ⟨-, -, u, -, -, -, hs⟩ :=
            verify_otp_ok_inv s ⟨e, ph, c⟩ tok now rr ss h
          intro m hmem
          rw [hs] at hmem
          exact hwf m hmem
  | createInstance b nm iid tok =>
      simp only [applyOp]
      cases h : create_instance s b nm iid tok with
      | error err => exact hwf
      | ok v =>
          obtain ⟨rr, ss⟩ := v
          obtain ⟨u, -, -, hs⟩ := create_instance_ok_inv s b nm iid tok rr ss h
          intro m hmem
          rw [hs] at hmem
          exact hwf m hmem
  | authenticateInstance b iid =>
      simp only [applyOp]
      cases h : authenticate_instance s b iid with
      | error err => exact hwf
      | ok v =>
          obtain ⟨rr, ss⟩ := v
          obtain ⟨u, inst, -, -, -, hs⟩ :=
            authenticate_instance_ok_inv s b iid rr ss h
          intro m hmem
          rw [hs] at hmem
          exact hwf m hmem
  | listInstances b => exact hwf
  | registerWebhook q =>
      simp only [applyOp]
      cases h : register_webhook s q with
      | error err => exact hwf
      | ok v =>
          obtain ⟨rr, ss⟩ := v
          obtain ⟨-, -, hm⟩ := register_webhook_ok_inv s q rr ss h
          intro m hmem
          exact hwf m (by rwa [hm] at hmem)
  | sendMessage q mid =>
      simp only [applyOp]
      cases h : send_message s q mid with
      | error err => exact hwf
      | ok v =>
          obtain ⟨rr, ss, cc⟩ := v
          obtain ⟨-, -, -, -, hm⟩ := send_message_ok_inv s q mid rr ss cc h
          intro m hmem
          rw [hm] at hmem
          rcases List.mem_append.mp hmem with hmem | hmem
          · exact hwf m hmem
          · have hmd : m = messageDocOf s q mid rr.status rr.error := by
              simpa using hmem
            subst hmd
            rcases send_message_ok_result s q mid rr ss cc h with
              ⟨h1, h2⟩ | ⟨h1, h2⟩
            · left; exact ⟨h1, h2⟩
            · right; exact ⟨h1, h2⟩
  | getMessageStatus mid => exact hwf

/-- C3 amended: the secret token is returned by CreateInstance at creation
time and by ListInstances (which returns the caller's full instance
documents, token field included); no other route's output contains any
stored secret token: RequestOTP returns exactly the freshly generated code
and its expiry, VerifyOTP exactly the freshly issued bearer token,
AuthenticateInstance exactly the given public id and `true`,
RegisterWebhook exactly the new document id (a number), SendMessage the
fresh message id with a fixed status/error pair, and GetMessageStatus the
stored message's fields, which (invariantly under every route) are a fixed
status/error pair and the queried id. -/
theorem secret_token_only_in_create_and_list :
    (∀ (s : Store) (bearer nm iid tok : String) (u : UserDoc),
      get_current_user s bearer = some u →
      create_instance s bearer nm iid tok =
        .ok ({ oid := s.nextId, instance_id := iid, token := tok,
               is_authenticated := false },
             { s with
               instances := s.instances ++
                 [{ id := s.nextId, user_id := toString u.id, iname := nm,
                    instance_id := iid, token := tok,
                    is_authenticated := false }],
               nextId := s.nextId + 1 }) ∧
      list_instances s bearer =
        .ok (s.instances.filter (fun i => i.user_id == toString u.id))) ∧
    (∀ (s : Store) (p : OTPRequestP) (code : String) (now : Nat)
      (rr : String × Nat) (s' : Store),
      request_otp s p code now = .ok (rr, s') →
      rr = (code, now + 10 * 60)) ∧
    (∀ (s : Store) (p : OTPVerifyP) (tok : String) (now : Nat) (tr : String)
      (s' : Store), verify_otp s p tok now = .ok (tr, s') → tr = tok) ∧
    (∀ (s : Store) (b iid : String) (r : String × Bool) (s' : Store),
      authenticate_instance s b iid = .ok (r, s') → r = (iid, true)) ∧
    (∀ (s : Store) (q : RegisterWebhookP) (n : Nat) (s' : Store),
      register_webhook s q = .ok (n, s') → n = s.nextId) ∧
    (∀ (s : Store) (p : SendMessageP) (mid : String) (r : SendResult)
      (s' : Store) (calls : List WebhookCall),
      send_message s p mid = .ok (r, s', calls) →
      r.message_id = mid ∧
      ((r.status = "sent" ∧ r.error = none) ∨
       (r.status = "failed" ∧
        r.error = some "Instance not authenticated (scan QR first)"))) ∧
    (∀ (s : Store) (mid : String) (r : SendResult),
      messagesWellFormed s → get_message_status s mid = .ok r →
      r.message_id = mid ∧
      ((r.status = "sent" ∧ r.error = none) ∨
       (r.status = "failed" ∧
        r.error = some "Instance not authenticated (scan QR first)"))) ∧
    (∀ (s : Store) (op : Op),
      messagesWellFormed s → messagesWellFormed (applyOp s op)) := by
  refine ⟨?_, ?_, ?_, ?_, ?_, ?_, ?_, ?_⟩
  · intro s bearer nm iid tok u hu
    constructor
    · unfold create_instance
      rw [hu]
    · unfold list_instances
      rw [hu]
  · intro s p code now rr s' h
    exact request_otp_ok_result s p code now rr s' h
  · intro s p tok now tr s' h
    exact (verify_otp_ok_inv s p tok now tr s' h).1
  · intro s b iid r s' h
    obtain ⟨u, inst, -, -, hr, -⟩ := authenticate_instance_ok_inv s b iid r s' h
    exact hr
  · intro s q n s' h
    exact register_webhook_ok_id s q n s' h
  · intro s p mid r s' calls h
    exact ⟨(send_message_ok_inv s p mid r s' calls h).1,
           send_message_ok_result s p mid r s' calls h⟩
  · intro s mid r hwf h
    obtain ⟨m, hmem, hmid, hr⟩ := get_message_status_ok_inv s mid r h
    subst hr
    refine ⟨hmid, ?_⟩
    rcases hwf m hmem with ⟨h1, h2⟩ | ⟨h1, h2⟩
    · left; exact ⟨h1, h2⟩
    · right; exact ⟨h1, h2⟩
  · intro s op hwf
    exact messagesWellFormed_preserved s op hwf

/-- C3 amended witness: instantiates every conjunct on concrete stores. -/
theorem secret_token_only_in_create_and_list_witness :
    (create_instance w3Store "BEARER" "dev2" "i2" "SECRET-2" =
      .ok ({ oid := 3, instance_id := "i2", token := "SECRET-2",
             is_authenticated := false },
           { users := [w3User],
             instances := [w3Inst,
               { id := 3, user_id := "1", iname := "dev2",
                 instance_id := "i2", token := "SECRET-2",
                 is_authenticated := false }],
             nextId := 4 }) ∧
     list_instances w3Store "BEARER" = .ok [w3Inst]) ∧
    ("123456", (0 : Nat) + 10 * 60) = ("123456", 0 + 10 * 60) ∧
    "NEWTOK" = "NEWTOK" ∧
    ("i1", true) = ("i1", true) ∧
    (3 : Nat) = w3Store.nextId ∧
    (("m1" : String) = "m1" ∧
      ((("failed" : String) = "sent" ∧
        (some "Instance not authenticated (scan QR first)" :
          Option String) = none) ∨
       (("failed" : String) = "failed" ∧
        (some "Instance not authenticated (scan QR first)" :
          Option String) =
          some "Instance not authenticated (scan QR first)"))) ∧
    (("m1" : String) = "m1" ∧
      ((("failed" : String) = "sent" ∧
        (some "Instance not authenticated (scan QR first)" :
          Option String) = none) ∨
       (("failed" : String) = "failed" ∧
        (some "Instance not authenticated (scan QR first)" :
          Option String) =
          some "Instance not authenticated (scan QR first)"))) ∧
    messagesWellFormed (applyOp w3SentStore (Op.listInstances "BEARER")) :=
  ⟨secret_token_only_in_create_and_list.1 w3Store "BEARER" "dev2" "i2"
     "SECRET-2" w3User (by decide),
   secret_token_only_in_create_and_list.2.1 { } { email := some "a@b.c" }
     "123456" 0 ("123456", 600)
     { users := [{ id := 0, email := some "a@b.c", phone := none,
                   uname := none, otp_code := some "123456",
                   otp_expires_at := some 600, access_tokens := [] }],
       nextId := 1 } rfl,
   secret_token_only_in_create_and_list.2.2.1 w3OtpStore
     { email := some "c3@b.c", code := "111111" } "NEWTOK" 10 "NEWTOK"
     w3OtpStore2 rfl,
   secret_token_only_in_create_and_list.2.2.2.1 w3Store "BEARER" "i1"
     ("i1", true) w3AuthStore rfl,
   secret_token_only_in_create_and_list.2.2.2.2.1 w3Store
     { instance_id := "i1", token := "SECRET-TOKEN",
       url := "http://cb.example/a" } 3 w3HookStore rfl,
   secret_token_only_in_create_and_list.2.2.2.2.2.1 w3Store
     { instance_id := "i1", token := "SECRET-TOKEN",
       toNumber := "+15550001111", text := some "hi" } "m1"
     { message_id := "m1", status := "failed",
       error := some "Instance not authenticated (scan QR first)" }
     w3SentStore [] rfl,
   secret_token_only_in_create_and_list.2.2.2.2.2.2.1 w3SentStore "m1"
     { message_id := "m1", status := "failed",
       error := some "Instance not authenticated (scan QR first)" }
     (by unfold messagesWellFormed; decide) rfl,
   secret_token_only_in_create_and_list.2.2.2.2.2.2.2 w3SentStore
     (Op.listInstances "BEARER") (by unfold messagesWellFormed; decide)⟩

end WhatsAppDemo
